import Mathlib

/-!
Verification development for the Particle "Messaging Architecture for Scale"
example firmware. The repository holds two near-identical sketches:

* `example_device_group_fw.ino` (called `ino` below), whose `parseMessage`
  copies the incoming event name (truncated to `MAX_EVENT_NAME_LENGTH`)
  into a local buffer, tokenizes it on slashes, and scans the first
  `numGroups` entries of `config.deviceGroups` for the parsed selector;
* the white-paper sketch (called `wp` below), whose `parseMessage`
  copies the incoming PAYLOAD `data` into the tokenized buffer and
  scans all `MAX_DEVICE_GROUPS` entries of `config.deviceGroups`.

The administrative functions `addToGroup`, `clearGroups` and `setUserID`
are textually identical in the two sketches and are embedded once.

C strings are modelled as Lean strings over their character values
(the examples are ASCII, where C bytes and Lean characters agree);
machine integers are modelled as `Nat` / `Int` with explicit bounds,
matching the ILP32 target of the firmware (32-bit `long` and `int`).
-/

/-- `MAX_USER_ID_LEN` from the source. -/
def MAX_USER_ID_LEN : Nat := 8

/-- `MAX_DEVICE_GROUPS` from the source. -/
def MAX_DEVICE_GROUPS : Nat := 16

/-- `particle::protocol::MAX_EVENT_NAME_LENGTH` (64 in Device OS). -/
def MAX_EVENT_NAME_LENGTH : Nat := 64

/-- `EEPROM_VERSION` from the source. -/
def EEPROM_VERSION : Nat := 1

/-- `DeviceConfig_t`: the persistent configuration record.  `userID` models
the value of the null-terminated `char userID[9]` field; `deviceGroups`
models the `uint8_t deviceGroups[16]` array (length 16, entries < 256 in
every state the firmware constructs). -/
structure DeviceConfig_t where
  version : Nat
  userID : String
  numGroups : Nat
  deviceGroups : List Nat
  deriving DecidableEq, Repr

/-- The firmware state visible to the claims: the in-RAM `config` global and
the EEPROM copy that `writeConfigToEEPROM` maintains. -/
structure SysState where
  config : DeviceConfig_t
  eeprom : DeviceConfig_t
  deriving DecidableEq, Repr

/-- `writeConfigToEEPROM`: `EEPROM.put(0, config)` copies the RAM record to
persistent storage. -/
def writeConfigToEEPROM (st : SysState) : SysState :=
  { st with eeprom := st.config }

/-- The set of groups the device belongs to: the first `numGroups` entries of
`deviceGroups` (the entries `addToGroup` has filled in). -/
def membership (cfg : DeviceConfig_t) : List Nat :=
  cfg.deviceGroups.take cfg.numGroups

/-- C `isspace` on the default locale, as consulted by `strtol`. -/
def isSpaceC (c : Char) : Bool :=
  c = ' ' || c = '\t' || c = '\n' || c = '\x0b' || c = '\x0c' || c = '\r'

/-- Value of a digit run, most significant first. -/
def digitsToNat (cs : List Char) : Nat :=
  cs.foldl (fun a c => a * 10 + (c.toNat - 48)) 0

/-- Exact mathematical value read by `strtol(s, NULL, 10)`: optional
whitespace, optional sign, then a maximal (possibly empty) digit run;
an empty digit run yields 0. -/
def strtolRaw (cs0 : List Char) : Int :=
  match cs0.dropWhile isSpaceC with
  | '-' :: rest => - (digitsToNat (rest.takeWhile Char.isDigit) : Int)
  | '+' :: rest => (digitsToNat (rest.takeWhile Char.isDigit) : Int)
  | cs => (digitsToNat (cs.takeWhile Char.isDigit) : Int)

/-- `strtol` clamps to `LONG_MIN..LONG_MAX`; on the 32-bit firmware target
`long` is 32 bits. -/
def clampLong (i : Int) : Int :=
  max (-2147483648) (min 2147483647 i)

/-- `strtol(s, NULL, 10)` on the ILP32 firmware target. -/
def strtol10 (s : String) : Int :=
  clampLong (strtolRaw s.data)

/-- The `(uint32_t)` cast applied to the parsed selector in `parseMessage`. -/
def toUInt32val (i : Int) : Nat :=
  (i % 4294967296).toNat

/-- One step of `strtok(·, "/")` tokenization: `tokAux cs acc` walks the
remaining characters with `acc` holding the (reversed) current token.
`strtok` skips runs of delimiters and never returns an empty token. -/
def tokAux : List Char → List Char → List (List Char)
  | [], acc => if acc = [] then [] else [acc.reverse]
  | c :: rest, acc =>
      if c = '/' then
        if acc = [] then tokAux rest [] else acc.reverse :: tokAux rest []
      else
        tokAux rest (c :: acc)

/-- The successive tokens `strtok(s, "/"); strtok(NULL, "/"); ...` produce:
maximal nonempty runs of non-slash characters. -/
def tokenize (s : String) : List String :=
  (tokAux s.data []).map String.mk

/-- The local copy made by the `ino` sketch:
`strncpy(event_name, event, MAX_EVENT_NAME_LENGTH)` followed by
`event_name[MAX_EVENT_NAME_LENGTH-1] = 0` keeps the first 63 characters. -/
def truncEvent (s : String) : String :=
  String.mk (s.data.take (MAX_EVENT_NAME_LENGTH - 1))

/-- The group-match decision of `parseMessage` given the parsed third token
(`none` when `strtok` returned `NULL`): broadcast when absent, direct match
against the device's own ID, else linear scan of `groups` for the
`(uint32_t)strtol` value of the selector. -/
def groupMatched (groups : List Nat) (devID : String) (sel : Option String) : Bool :=
  match sel with
  | none => true
  | some g =>
      if g = devID then true
      else decide (toUInt32val (strtol10 g) ∈ groups)

/-- The shared shape of `parseMessage` in both sketches, as a function of the
string `s` actually handed to `strtok` and of the slots `groups` scanned by
the matching loop.  Returns the command token handed to the handler table
together with the payload passed to the handler, or `none` when no handler
dispatch happens. -/
def dispatchOn (cfg : DeviceConfig_t) (groups : List Nat) (devID : String)
    (s : String) (payload : String) : Option (String × String) :=
  match tokenize s with
  | [] => none
  | u :: rest =>
      if u = cfg.userID then
        match rest with
        | [] => none
        | c :: rest2 =>
            if groupMatched groups devID rest2.head? then some (c, payload)
            else none
      else none

/-- `parseMessage` of `example_device_group_fw.ino`: tokenizes the (truncated)
event name and scans the first `config.numGroups` group slots. -/
def parseMessage_ino (cfg : DeviceConfig_t) (devID : String)
    (event : String) (data : String) : Option (String × String) :=
  dispatchOn cfg (membership cfg) devID (truncEvent event) data

/-- `parseMessage` of the white-paper sketch: the source copies `data` (the
payload), not `event`, into the buffer handed to `strtok`
(`char event_data[strlen(data)+1]; strcpy(event_data, data);`), and its
matching loop runs `for (i = 0; i < MAX_DEVICE_GROUPS; i++)` over the whole
`deviceGroups` array. -/
def parseMessage_wp (cfg : DeviceConfig_t) (devID : String)
    (_event : String) (data : String) : Option (String × String) :=
  dispatchOn cfg (cfg.deviceGroups.take MAX_DEVICE_GROUPS) devID data data

/-- Handler table of the `ino` sketch. -/
inductive INOHandler where
  | f1 | f2 | f3
  deriving DecidableEq, Repr

/-- Command lookup of the `ino` sketch (`strcmp` chain over f1/f2/f3). -/
def handlerFor_ino (c : String) : Option INOHandler :=
  if c = "f1" then some INOHandler.f1
  else if c = "f2" then some INOHandler.f2
  else if c = "f3" then some INOHandler.f3
  else none

/-- Handler table of the white-paper sketch. -/
inductive WPHandler where
  | red | green | blue
  deriving DecidableEq, Repr

/-- Command lookup of the white-paper sketch (`strcmp` chain). -/
def handlerFor_wp (c : String) : Option WPHandler :=
  if c = "red" then some WPHandler.red
  else if c = "green" then some WPHandler.green
  else if c = "blue" then some WPHandler.blue
  else none

/-- Which handler the `ino` sketch invokes, and with which payload. -/
def invoked_ino (cfg : DeviceConfig_t) (devID : String)
    (event : String) (data : String) : Option (INOHandler × String) :=
  match parseMessage_ino cfg devID event data with
  | none => none
  | some (c, d) =>
      match handlerFor_ino c with
      | none => none
      | some h => some (h, d)

/-- Which handler the white-paper sketch invokes, and with which payload. -/
def invoked_wp (cfg : DeviceConfig_t) (devID : String)
    (event : String) (data : String) : Option (WPHandler × String) :=
  match parseMessage_wp cfg devID event data with
  | none => none
  | some (c, d) =>
      match handlerFor_wp c with
      | none => none
      | some h => some (h, d)

/-- Event delivery as a state transition: the source `parseMessage` writes no
field of `config` and touches no EEPROM, so the firmware state is unchanged
and the only output is the dispatch decision. -/
def parseMessageStep_ino (st : SysState) (devID : String)
    (event : String) (data : String) : SysState × Option (String × String) :=
  (st, parseMessage_ino st.config devID event data)

/-- `addToGroup` (identical in both sketches): parse, range-check 1..255,
capacity-check, append, persist. -/
def addToGroup (st : SysState) (extra : String) : Int × SysState :=
  let parsedGroup : Int := strtol10 extra
  if 0 < parsedGroup ∧ parsedGroup < 256 then
    if st.config.numGroups < MAX_DEVICE_GROUPS then
      let cfg :=
        { st.config with
          deviceGroups := st.config.deviceGroups.set st.config.numGroups parsedGroup.toNat,
          numGroups := st.config.numGroups + 1 }
      (parsedGroup, writeConfigToEEPROM { st with config := cfg })
    else (-2, st)
  else (-1, st)

/-- `clearGroups` (identical in both sketches): zero the count and persist. -/
def clearGroups (st : SysState) (_extra : String) : Int × SysState :=
  (0, writeConfigToEEPROM { st with config := { st.config with numGroups := 0 } })

/-- `setUserID` (identical in both sketches): reject the empty string with -1;
otherwise `strncpy` the first `MAX_USER_ID_LEN` characters into the
null-terminated `userID` field, persist, resubscribe, and return 0. -/
def setUserID (st : SysState) (extra : String) : Int × SysState :=
  if 0 < extra.data.length then
    let cfg := { st.config with userID := String.mk (extra.data.take MAX_USER_ID_LEN) }
    (0, writeConfigToEEPROM { st with config := cfg })
  else (-1, st)

/-- Default configuration the `ino` sketch installs when EEPROM reads as
erased (`memset` zeroes the user ID). -/
def defaultConfig_ino : DeviceConfig_t :=
  { version := EEPROM_VERSION
    userID := ""
    numGroups := 0
    deviceGroups := List.replicate MAX_DEVICE_GROUPS 0 }

/-- Default configuration `readOrInitEEPROM` of the white-paper sketch
installs when EEPROM reads as erased (`strcpy(config.userID, "000000")`). -/
def defaultConfig_wp : DeviceConfig_t :=
  { version := EEPROM_VERSION
    userID := "000000"
    numGroups := 0
    deviceGroups := List.replicate MAX_DEVICE_GROUPS 0 }

/-- A whole-state value for the white-paper defaults. -/
def defaultState_wp : SysState :=
  { config := defaultConfig_wp, eeprom := defaultConfig_wp }

/-- The invariants claimed of every reachable configuration. -/
def ConfigInv (cfg : DeviceConfig_t) : Prop :=
  cfg.numGroups ≤ MAX_DEVICE_GROUPS ∧ cfg.userID.data.length ≤ MAX_USER_ID_LEN

-- Concrete strings used in the theorems below.

/-- The decimal string handed to `addToGroup` in the duplicate test. -/
def strFive : String := "5"

/-- The decimal string zero. -/
def strZero : String := "0"

/-- A ten-character user ID used to exercise truncation. -/
def strLongID : String := "abcdefghij"

/-- An example device ID. -/
def devA : String := "e00fce68f5048fcadf1ea38a"

/-- Topic addressing user `000000`, command `red`, selector `0`. -/
def topicRed0 : String := "000000/red/0"

/-- Topic addressing user `000000`, command `red`, no selector. -/
def topicRed : String := "000000/red"

/-- Topic addressing user `000000`, command `green`, no selector. -/
def topicGreen : String := "000000/green"

/-- Topic addressing user `000000`, command `red`, non-numeric selector. -/
def topicRedAbc : String := "000000/red/abc"

/-- The empty string. -/
def strEmpty : String := ""

/-- The first eight characters of `strLongID`. -/
def strTrunc8 : String := "abcdefgh"

/-- The user ID used in the spec's worked scenario. -/
def strUser123 : String := "123ABC"

/-- The command `f1` of the `ino` sketch. -/
def cmdF1 : String := "f1"

/-- Two consecutive slashes. -/
def doubleSlash : String := "//"

/-- The example device ID of the spec's worked scenario. -/
def devDemo : String := "dev42"

/-- An arbitrary payload. -/
def payloadP : String := "p"

/-- The spec's worked-scenario configuration: userID `123ABC`, membership
`{7}`. -/
def cfgDemo : DeviceConfig_t :=
  { version := EEPROM_VERSION
    userID := strUser123
    numGroups := 1
    deviceGroups := [7, 0, 0, 0, 0, 0, 0, 0, 0, 0, 0, 0, 0, 0, 0, 0] }

/-- Topic `123ABC/f1/dev42`: direct device addressing. -/
def topicDirect : String := "123ABC/f1/dev42"

/-- The state reached from the white-paper defaults by one `addToGroup("5")`
call: a membership built only through `addToGroup`. -/
def stateAfterAdd5 : SysState := (addToGroup defaultState_wp strFive).2

/-- A non-numeric selector string. -/
def selAbc : String := "abc"

example : strtol10 strFive = 5 := by decide
example : strtol10 strZero = 0 := by decide
example : tokenize topicRed0 = [String.mk ['0','0','0','0','0','0'], String.mk ['r','e','d'], String.mk ['0']] := by decide

/-! ## Tokenizer lemmas -/

theorem tokAux_nil_eq (acc : List Char) :
    tokAux [] acc = if acc = [] then [] else [acc.reverse] := rfl

theorem tokAux_cons_eq (c : Char) (rest acc : List Char) :
    tokAux (c :: rest) acc =
      if c = '/' then
        if acc = [] then tokAux rest [] else acc.reverse :: tokAux rest []
      else tokAux rest (c :: acc) := rfl

theorem tokAux_not_mem_nil (cs : List Char) : ∀ acc, [] ∉ tokAux cs acc := by
  induction cs with
  | nil =>
      intro acc
      rw [tokAux_nil_eq]
      split
      · simp
      · simpa using List.reverse_eq_nil_iff.not.mpr (by assumption)
  | cons c rest ih =>
      intro acc
      rw [tokAux_cons_eq]
      split
      · split
        · exact ih []
        · intro hmem
          rcases List.mem_cons.mp hmem with h | h
          · exact (by assumption : ¬acc = []) (List.reverse_eq_nil_iff.mp h.symm)
          · exact ih [] h
      · exact ih (c :: acc)

theorem tokAux_append_slash (u : List Char) (hu : ∀ x ∈ u, x ≠ '/') :
    ∀ acc rest, acc.reverse ++ u ≠ [] →
      tokAux (u ++ '/' :: rest) acc = (acc.reverse ++ u) :: tokAux rest [] := by
  induction u with
  | nil =>
      intro acc rest hne
      have hacc : acc ≠ [] := by
        intro h; exact hne (by simp [h])
      rw [List.nil_append, tokAux_cons_eq]
      simp [hacc]
  | cons x u2 ih =>
      intro acc rest hne
      have hx : x ≠ '/' := hu x (by simp)
      have hstep : tokAux (x :: (u2 ++ '/' :: rest)) acc
          = tokAux (u2 ++ '/' :: rest) (x :: acc) := by
        rw [tokAux_cons_eq]; simp [hx]
      have hne2 : (x :: acc).reverse ++ u2 ≠ [] := by
        simp
      have hrec := ih (fun y hy => hu y (by simp [hy])) (x :: acc) rest hne2
      calc tokAux ((x :: u2) ++ '/' :: rest) acc
          = tokAux (u2 ++ '/' :: rest) (x :: acc) := hstep
        _ = ((x :: acc).reverse ++ u2) :: tokAux rest [] := hrec
        _ = (acc.reverse ++ x :: u2) :: tokAux rest [] := by
            simp

theorem tokAux_no_slash (u : List Char) (hu : ∀ x ∈ u, x ≠ '/') :
    ∀ acc, acc.reverse ++ u ≠ [] → tokAux u acc = [acc.reverse ++ u] := by
  induction u with
  | nil =>
      intro acc hne
      have hacc : acc ≠ [] := by
        intro h; exact hne (by simp [h])
      rw [tokAux_nil_eq]
      simp [hacc]
  | cons x u2 ih =>
      intro acc hne
      have hx : x ≠ '/' := hu x (by simp)
      have hstep : tokAux (x :: u2) acc = tokAux u2 (x :: acc) := by
        rw [tokAux_cons_eq]; simp [hx]
      have hrec := ih (fun y hy => hu y (by simp [hy])) (x :: acc) (by simp)
      rw [hstep, hrec]
      simp

theorem tokenize_double_slash (U C : String) (hU : U.data ≠ []) (hC : C.data ≠ [])
    (hU2 : ∀ x ∈ U.data, x ≠ '/') (hC2 : ∀ x ∈ C.data, x ≠ '/') :
    tokenize (String.mk (U.data ++ '/' :: '/' :: C.data)) = [U, C] := by
  unfold tokenize
  have h1 : tokAux (U.data ++ '/' :: ('/' :: C.data)) []
      = U.data :: tokAux ('/' :: C.data) [] := by
    simpa using tokAux_append_slash U.data hU2 [] ('/' :: C.data) (by simpa using hU)
  have h2 : tokAux ('/' :: C.data) [] = tokAux C.data [] := by
    rw [tokAux_cons_eq]; simp
  have h3 : tokAux C.data [] = [C.data] := by
    simpa using tokAux_no_slash C.data hC2 [] (by simpa using hC)
  simp only [h1, h2, h3, List.map_cons, List.map_nil]

/-- No token produced by the tokenizer is the empty string. -/
theorem tokenize_no_empty (t : String) : strEmpty ∉ tokenize t := by
  intro hmem
  unfold tokenize at hmem
  rcases List.mem_map.mp hmem with ⟨cs, hcs, heq⟩
  have hnil : cs = [] := congrArg String.data heq
  exact tokAux_not_mem_nil t.data [] (hnil ▸ hcs)

/-! ## List helper lemmas -/

theorem take_set_eq_append (l : List Nat) (n : Nat) (x : Nat) (h : n < l.length) :
    (l.set n x).take (n + 1) = l.take n ++ [x] := by
  induction l generalizing n with
  | nil => simp at h
  | cons a t ih =>
      cases n with
      | zero => simp
      | succ m =>
          simp only [List.set_cons_succ, List.take_succ_cons, List.cons_append]
          exact congrArg (a :: ·) (ih m (by simpa using h))

/-! ## Claim theorems -/

/-- Claim C4: for every topic whose first segment equals the configured
userID and that has a command segment, an absent selector dispatches
(broadcast), and a selector exactly equal to the device's own ID dispatches
regardless of the configured group membership (the configuration, and with
it the membership, is universally quantified); both cases hand the command
and the untouched payload to the dispatcher without any numeric comparison. -/
theorem broadcast_and_direct_dispatch (cfg : DeviceConfig_t)
    (devID event payload u c : String) (rest : List String)
    (htok : tokenize (truncEvent event) = u :: c :: rest) (hu : u = cfg.userID) :
    (rest = [] → parseMessage_ino cfg devID event payload = some (c, payload)) ∧
    (∀ sel rest2, rest = sel :: rest2 → sel = devID →
      parseMessage_ino cfg devID event payload = some (c, payload)) := by
  subst hu
  constructor
  · intro hrest
    subst hrest
    unfold parseMessage_ino dispatchOn
    rw [htok]
    simp [groupMatched]
  · intro sel rest2 hrest hsel
    subst hrest
    subst hsel
    unfold parseMessage_ino dispatchOn
    rw [htok]
    simp [groupMatched]

/-- Witness for C4: in the spec's worked scenario (userID `123ABC`,
membership `{7}`, own ID `dev42`), the topic `123ABC/f1/dev42` dispatches
`f1` even though `dev42` parses to 0, which is not in the membership. -/
theorem broadcast_and_direct_dispatch_w :
    parseMessage_ino cfgDemo devDemo topicDirect payloadP = some (cmdF1, payloadP) :=
  (broadcast_and_direct_dispatch cfgDemo devDemo topicDirect payloadP strUser123 cmdF1
    [devDemo] (by decide) rfl).2 devDemo [] rfl rfl

/-- Claim C10: the strtok-based tokenizer collapses consecutive and leading
slashes and never yields an empty segment; consequently, for every configured
userID `U` and command `C` (nonempty, slash-free, and with the topic short
enough to survive the 63-character event-name copy), the topic `U//C` is
parsed with `U` as the user segment and `C` as the command segment, and is
dispatched as a broadcast of `C` — the empty string between the slashes is
never taken as the command segment. -/
theorem double_slash_broadcast (cfg : DeviceConfig_t) (devID payload U C : String)
    (hU : U.data ≠ []) (hC : C.data ≠ [])
    (hU2 : ∀ x ∈ U.data, x ≠ '/') (hC2 : ∀ x ∈ C.data, x ≠ '/')
    (hu : U = cfg.userID)
    (hlen : U.data.length + 2 + C.data.length ≤ MAX_EVENT_NAME_LENGTH - 1) :
    (∀ t, strEmpty ∉ tokenize t) ∧
    parseMessage_ino cfg devID (U ++ doubleSlash ++ C) payload = some (C, payload) := by
  refine ⟨tokenize_no_empty, ?_⟩
  have hdd : doubleSlash.data = ['/', '/'] := rfl
  have hdata : (U ++ doubleSlash ++ C).data = U.data ++ '/' :: '/' :: C.data := by
    simp [String.data_append, hdd]
  have hl2 : (U.data ++ '/' :: '/' :: C.data).length ≤ MAX_EVENT_NAME_LENGTH - 1 := by
    simp only [List.length_append, List.length_cons]
    omega
  have htr : truncEvent (U ++ doubleSlash ++ C) = U ++ doubleSlash ++ C := by
    unfold truncEvent
    rw [hdata, List.take_of_length_le hl2]
    exact congrArg String.mk hdata.symm
  have htok : tokenize (truncEvent (U ++ doubleSlash ++ C)) = [U, C] := by
    rw [htr]
    have := tokenize_double_slash U C hU hC hU2 hC2
    rwa [show String.mk (U.data ++ '/' :: '/' :: C.data) = U ++ doubleSlash ++ C from
      congrArg String.mk hdata.symm] at this
  subst hu
  unfold parseMessage_ino dispatchOn
  rw [htok]
  simp [groupMatched]

/-- Witness for C10: topic `123ABC//f1` with configured userID `123ABC`
dispatches `f1` as a broadcast. -/
theorem double_slash_broadcast_w :
    parseMessage_ino cfgDemo devDemo (strUser123 ++ doubleSlash ++ cmdF1) payloadP
      = some (cmdF1, payloadP) :=
  (double_slash_broadcast cfgDemo devDemo payloadP strUser123 cmdF1 (by decide) (by decide)
    (by decide) (by decide) rfl (by decide)).2

/-- Claim C7: `setUserID("")` returns -1 and the whole state — RAM
configuration and EEPROM copy alike — is exactly the old one: nothing is
changed and nothing is persisted. -/
theorem setUserID_empty_rejected (st : SysState) : setUserID st strEmpty = (-1, st) := rfl

/-- Claim C8: for every non-empty input, `setUserID` stores the first at most
8 characters of the input as the userID (longer inputs are truncated), keeps
the stored userID at no more than 8 characters, leaves the group fields
alone, persists the new configuration to EEPROM, and returns 0. -/
theorem setUserID_truncates (st : SysState) (s : String) (h : s ≠ "") :
    (setUserID st s).1 = 0 ∧
    (setUserID st s).2.config.userID = String.mk (s.data.take MAX_USER_ID_LEN) ∧
    (setUserID st s).2.config.userID.data.length ≤ MAX_USER_ID_LEN ∧
    (setUserID st s).2.config.numGroups = st.config.numGroups ∧
    (setUserID st s).2.config.deviceGroups = st.config.deviceGroups ∧
    (setUserID st s).2.eeprom = (setUserID st s).2.config := by
  have hlen : 0 < s.data.length := by
    rcases s with ⟨cs⟩
    cases cs with
    | nil => exact absurd rfl h
    | cons c cs2 => simp
  simp only [setUserID, writeConfigToEEPROM]
  rw [if_pos hlen]
  refine ⟨rfl, rfl, ?_, rfl, rfl, rfl⟩
  show (s.data.take MAX_USER_ID_LEN).length ≤ MAX_USER_ID_LEN
  simp only [List.length_take]
  omega

/-- Witness for C8: `setUserID("abcdefghij")` returns 0 and stores
`"abcdefgh"`. -/
theorem setUserID_truncates_w :
    (setUserID defaultState_wp strLongID).1 = 0 ∧
    (setUserID defaultState_wp strLongID).2.config.userID = strTrunc8 := by
  have H := setUserID_truncates defaultState_wp strLongID (by decide)
  exact ⟨H.1, H.2.1.trans (by decide)⟩

/-- Claim C5: `addToGroup` returns -1 exactly when the parsed integer value of
its argument lies outside 1..255; returns -2 exactly when the value is in
range but the membership already holds 16 entries; and otherwise appends the
value to the membership, persists the configuration to EEPROM, and returns
the added group number. -/
theorem addToGroup_retcodes (st : SysState) (s : String)
    (hn : st.config.numGroups ≤ MAX_DEVICE_GROUPS)
    (hlen : st.config.deviceGroups.length = MAX_DEVICE_GROUPS) :
    ((addToGroup st s).1 = -1 ↔ ¬(0 < strtol10 s ∧ strtol10 s < 256)) ∧
    ((addToGroup st s).1 = -2 ↔
      (0 < strtol10 s ∧ strtol10 s < 256) ∧ st.config.numGroups = MAX_DEVICE_GROUPS) ∧
    ((0 < strtol10 s ∧ strtol10 s < 256) → st.config.numGroups < MAX_DEVICE_GROUPS →
      (addToGroup st s).1 = strtol10 s ∧
      membership (addToGroup st s).2.config
        = membership st.config ++ [(strtol10 s).toNat] ∧
      (addToGroup st s).2.config.numGroups = st.config.numGroups + 1 ∧
      (addToGroup st s).2.config.userID = st.config.userID ∧
      (addToGroup st s).2.eeprom = (addToGroup st s).2.config) := by
  simp only [addToGroup, writeConfigToEEPROM]
  split_ifs with h1 h2
  · refine ⟨?_, ?_, ?_⟩
    · constructor
      · intro he
        exact absurd h1 (by omega)
      · intro hc
        exact absurd h1 hc
    · constructor
      · intro he
        exact absurd h1 (by omega)
      · intro hc
        exact absurd hc.2 (by omega)
    · intro _ _
      refine ⟨rfl, ?_, rfl, rfl, rfl⟩
      show (st.config.deviceGroups.set st.config.numGroups (strtol10 s).toNat).take
          (st.config.numGroups + 1)
        = st.config.deviceGroups.take st.config.numGroups ++ [(strtol10 s).toNat]
      exact take_set_eq_append _ _ _ (by omega)
  · refine ⟨?_, ?_, ?_⟩
    · constructor
      · intro he
        exact absurd he (by decide : ¬(-2 : Int) = -1)
      · intro hc
        exact absurd h1 hc
    · exact ⟨fun _ => ⟨h1, by omega⟩, fun _ => rfl⟩
    · intro _ hlt
      exact absurd hlt h2
  · refine ⟨⟨fun _ => h1, fun _ => rfl⟩, ?_, ?_⟩
    · constructor
      · intro he
        exact absurd he (by decide : ¬(-1 : Int) = -2)
      · intro hc
        exact absurd hc.1 h1
    · intro hc _
      exact absurd hc h1

/-- Witness for C5: `addToGroup("0")` on the default configuration returns -1,
since 0 parses to 0, which is outside 1..255. -/
theorem addToGroup_retcodes_w :
    (addToGroup defaultState_wp strZero).1 = -1 :=
  ((addToGroup_retcodes defaultState_wp strZero (by decide) (by decide)).1).mpr (by decide)

/-- Claim C6: `addToGroup` deduplicates nothing: from any configuration with
fewer than 15 members, two successive `addToGroup("5")` calls leave the
membership equal to the old membership (unchanged, in order) followed by two
entries equal to 5. -/
theorem addToGroup_no_dedup (st : SysState)
    (hn : st.config.numGroups < 15)
    (hlen : st.config.deviceGroups.length = MAX_DEVICE_GROUPS) :
    membership (addToGroup (addToGroup st strFive).2 strFive).2.config
      = membership st.config ++ [5, 5] := by
  have hv : strtol10 strFive = 5 := by decide
  have hrange : (0 : Int) < strtol10 strFive ∧ strtol10 strFive < 256 := by
    rw [hv]; exact ⟨by omega, by omega⟩
  have hcap1 : st.config.numGroups < MAX_DEVICE_GROUPS := by
    show st.config.numGroups < 16
    omega
  simp only [addToGroup, writeConfigToEEPROM, if_pos hrange, if_pos hcap1]
  have hcap2 : st.config.numGroups + 1 < MAX_DEVICE_GROUPS := by
    show st.config.numGroups + 1 < 16
    omega
  simp only [if_pos hrange, if_pos hcap2]
  show ((st.config.deviceGroups.set st.config.numGroups (strtol10 strFive).toNat).set
        (st.config.numGroups + 1) (strtol10 strFive).toNat).take (st.config.numGroups + 1 + 1)
    = st.config.deviceGroups.take st.config.numGroups ++ [5, 5]
  rw [hv]
  show ((st.config.deviceGroups.set st.config.numGroups 5).set
        (st.config.numGroups + 1) 5).take (st.config.numGroups + 1 + 1)
    = st.config.deviceGroups.take st.config.numGroups ++ [5, 5]
  rw [take_set_eq_append _ _ _ (by simp [List.length_set]; omega),
      take_set_eq_append _ _ _ (by omega)]
  simp

/-- Witness for C6: two `addToGroup("5")` calls from the default (empty)
membership leave the membership `[5, 5]`. -/
theorem addToGroup_no_dedup_w :
    membership (addToGroup (addToGroup defaultState_wp strFive).2 strFive).2.config
      = membership defaultState_wp.config ++ [5, 5] :=
  addToGroup_no_dedup defaultState_wp (by decide) (by decide)

/-- Claim C9: the invariants `numGroups <= 16` and `length(userID) <= 8` hold
for the defaults installed by both sketches on erased EEPROM and are
preserved by `addToGroup`, `clearGroups` and `setUserID`; event delivery
through `parseMessage` writes no configuration field at all, so it preserves
them trivially. -/
theorem config_invariants (st : SysState) (s : String) (h : ConfigInv st.config) :
    ConfigInv defaultConfig_ino ∧ ConfigInv defaultConfig_wp ∧
    ConfigInv (addToGroup st s).2.config ∧
    ConfigInv (clearGroups st s).2.config ∧
    ConfigInv (setUserID st s).2.config ∧
    (∀ devID event data,
      (parseMessageStep_ino st devID event data).1 = st ∧
      ConfigInv (parseMessageStep_ino st devID event data).1.config) := by
  obtain ⟨h1, h2⟩ := h
  refine ⟨⟨by decide, by decide⟩, ⟨by decide, by decide⟩, ?_, ?_, ?_, ?_⟩
  · simp only [addToGroup, writeConfigToEEPROM]
    split_ifs with ha hb
    · exact ⟨by show st.config.numGroups + 1 ≤ 16; revert hb; show _ < 16 → _; omega, h2⟩
    · exact ⟨h1, h2⟩
    · exact ⟨h1, h2⟩
  · exact ⟨by show 0 ≤ 16; omega, h2⟩
  · simp only [setUserID, writeConfigToEEPROM]
    split_ifs with ha
    · refine ⟨h1, ?_⟩
      show (s.data.take MAX_USER_ID_LEN).length ≤ MAX_USER_ID_LEN
      simp only [List.length_take]
      omega
    · exact ⟨h1, h2⟩
  · exact fun devID event data => ⟨rfl, h1, h2⟩

/-- Witness for C9: the state after one `addToGroup("5")` from the
white-paper defaults still satisfies the invariants. -/
theorem config_invariants_w :
    ConfigInv (addToGroup defaultState_wp strFive).2.config :=
  (config_invariants defaultState_wp strFive ⟨by decide, by decide⟩).2.2.1

/-- Claim C1 counterexample: in the white-paper sketch the matching loop runs
over all 16 `deviceGroups` slots instead of the first `numGroups`, so on the
default configuration (numGroups = 0, all slots 0, userID `000000`) the
topic `000000/red/0` invokes the `red` handler even though the membership
(the first `numGroups` entries) is empty; the sister sketch's
`parseMessage`, which bounds the scan by `numGroups`, does not dispatch on
the same input. -/
theorem wp_scan_ignores_numGroups :
    membership defaultConfig_wp = [] ∧
    invoked_wp defaultConfig_wp devA topicRed0 topicRed0
      = some (WPHandler.red, topicRed0) ∧
    parseMessage_ino defaultConfig_wp devA topicRed0 topicRed0 = none := by
  refine ⟨rfl, by decide, by decide⟩

/-- Claim C2 counterexample: the white-paper sketch copies the payload
`data`, not the event name, into the buffer handed to `strtok`, so two
deliveries with the same topic name and the same configuration but different
payloads invoke different handlers. -/
theorem wp_dispatch_depends_on_payload :
    invoked_wp defaultConfig_wp devA topicRed topicRed
      = some (WPHandler.red, topicRed) ∧
    invoked_wp defaultConfig_wp devA topicRed topicGreen
      = some (WPHandler.green, topicGreen) := by
  exact ⟨by decide, by decide⟩

/-- Claim C3 counterexample: from the white-paper defaults, after building
the membership only through `addToGroup("5")` (membership = [5], no group
equal to 0), the non-numeric selector `abc` parses to 0, yet the white-paper
sketch dispatches `red` on `000000/red/abc` because its loop also scans the
zero-initialized slots beyond `numGroups`; the sister sketch's
`numGroups`-bounded `parseMessage` does not dispatch there. -/
theorem wp_nonnumeric_selector_dispatches :
    membership stateAfterAdd5.config = [5] ∧
    (0 : Nat) ∉ membership stateAfterAdd5.config ∧
    toUInt32val (strtol10 selAbc) = 0 ∧
    invoked_wp stateAfterAdd5.config devA topicRedAbc topicRedAbc
      = some (WPHandler.red, topicRedAbc) ∧
    parseMessage_ino stateAfterAdd5.config devA topicRedAbc topicRedAbc = none := by
  refine ⟨by decide, by decide, by decide, by decide, by decide⟩
